import Mathlib

/-!
Verification development for the housing test-data generator notebooks
(`build-a-test-csv-dataset.ipynb`, `create-database-using-sqlite.ipynb`).

The notebooks are shallowly embedded: Python dicts become association lists
(Python dicts iterate in insertion order), the process-wide `random` module
becomes an explicit `RandState` (an infinite stream of naturals plus a cursor),
a Python function that can raise becomes an `Option`- or `Except`-valued
function, and machine integers are `Int` (Python ints are unbounded, so no
wrap-around is modelled).
-/

/-- A scalar value as it appears in the TOML config lists and in generated
rows: Python `int`, `str` or `bool`. -/
inductive Value where
  | vint (n : Int)
  | vstr (s : String)
  | vbool (b : Bool)
deriving DecidableEq, Repr

/-- Explicit randomness source replacing Python's process-wide `random`
state: an infinite stream of naturals and a cursor into it.  Each primitive
draw consumes one stream element. -/
structure RandState where
  stream : Nat → Nat
  idx : Nat

/-- Consume one raw value from the randomness source. -/
def RandState.next (g : RandState) : Nat × RandState :=
  (g.stream g.idx, { g with idx := g.idx + 1 })

/-- Model of `random.randint(lo, hi)`: an integer in `[lo, hi]` inclusive,
obtained from the next stream element; Python raises `ValueError` when
`lo > hi`, modelled as `none`. -/
def randint (lo hi : Int) (g : RandState) : Option (Int × RandState) :=
  if lo ≤ hi then
    some (lo + (↑(g.stream g.idx % (hi + 1 - lo).toNat) : Int),
          { g with idx := g.idx + 1 })
  else none

/-- Model of `random.choice(l)`: an element of `l` selected by the next
stream element; Python raises `IndexError` on an empty sequence, modelled
as `none`. -/
def choice {α : Type} (l : List α) (g : RandState) : Option (α × RandState) :=
  if h : 0 < l.length then
    some (l.get ⟨g.stream g.idx % l.length, Nat.mod_lt _ h⟩,
          { g with idx := g.idx + 1 })
  else none

/-- Decimal digits of a natural number, most significant first: the model of
Python's `str(i)` for a non-negative `int` (as used in f-strings). -/
def pyStr (n : Nat) : List Char :=
  if _h : n < 10 then [Nat.digitChar n]
  else pyStr (n / 10) ++ [Nat.digitChar (n % 10)]
  termination_by n
  decreasing_by exact Nat.div_lt_self (by omega) (by omega)

/-- Read a list of decimal digit characters back as a natural number. -/
def decodeDigits (l : List Char) : Nat :=
  l.foldl (fun acc c => acc * 10 + (c.toNat - 48)) 0

/-- Model of Python's `str.split("-")`, on the character list of the string:
splits at every `'-'`, keeping empty chunks. -/
def splitDash : List Char → List (List Char)
  | [] => [[]]
  | c :: rest =>
      match splitDash rest, decide (c = '-') with
      | r, true => [] :: r
      | [], false => [[c]]
      | g :: gs, false => (c :: g) :: gs

/-- Model of Python's `int(s)` on one chunk produced by `split("-")`: the
chunk never contains `'-'`, so a successful parse is a plain run of decimal
digits (surrounding whitespace and a leading `+`, which Python would also
accept, do not occur in the configs modelled here). `ValueError` is `none`. -/
def pyInt? (s : List Char) : Option Int :=
  if s ≠ [] ∧ s.all Char.isDigit then some (Int.ofNat (decodeDigits s))
  else none

/-- Parse every chunk with `pyInt?`, failing if any chunk fails: the model of
the list comprehension `[int(i) for i in range_str.split("-")]`. -/
def parseChunks : List (List Char) → Option (List Int)
  | [] => some []
  | c :: cs =>
      match pyInt? c, parseChunks cs with
      | some v, some vs => some (v :: vs)
      | _, _ => none

/-- Python's `round(n, -3)` on an integer `n`: nearest multiple of 1000,
ties going to the even multiple (banker's rounding, exact on ints).  On
this toolchain `/` and `%` on `Int` are Euclidean division and remainder,
which agree with Python's `//` and `%` for the positive modulus used. -/
def pyRound1000 (n : Int) : Int :=
  if n % 1000 < 500 then 1000 * (n / 1000)
  else if 500 < n % 1000 then 1000 * (n / 1000 + 1)
  else if (n / 1000) % 2 = 0 then 1000 * (n / 1000)
  else 1000 * (n / 1000 + 1)

/-- `get_randint_from_range_str` from `build-a-test-csv-dataset.ipynb`:
parse `"a-b"` into its integer chunks, normalise with `min`/`max`, draw
uniformly from the inclusive range, and round draws above 100000 to the
nearest thousand. -/
def get_randint_from_range_str (range_str : String) (g : RandState) :
    Option (Int × RandState) :=
  match parseChunks (splitDash range_str.data) with
  | none => none
  | some [] => none
  | some (x :: xs) =>
      let min_value := xs.foldl min x
      let max_value := xs.foldl max x
      match randint min_value max_value g with
      | none => none
      | some (rand_int, g') =>
          some ((if rand_int ≤ 100000 then rand_int else pyRound1000 rand_int), g')

/-- A rule of the flat/legacy configuration schema: the notebook dispatches
on the Python type of the config value — a string is a `"min-max"` range
rule, a list is a choice rule. -/
inductive Rule where
  | rangeStr (s : String)
  | choiceList (vs : List Value)
deriving DecidableEq, Repr

/-- One tier's rule-set: attribute name to rule, in insertion order. -/
abbrev RuleSet : Type := List (String × Rule)

/-- A generated row: attribute name to value, in insertion order. -/
abbrev Row : Type := List (String × Value)

/-- `generate_one_row_random_house_data` from the notebook: one value per
attribute, a range draw for string rules and a uniform choice for list
rules. -/
def generate_one_row_random_house_data (config : RuleSet) (g : RandState) :
    Option (Row × RandState) :=
  match config with
  | [] => some ([], g)
  | (k, Rule.rangeStr s) :: rest =>
      match get_randint_from_range_str s g with
      | none => none
      | some (v, g') =>
          match generate_one_row_random_house_data rest g' with
          | none => none
          | some (row, g'') => some ((k, Value.vint v) :: row, g'')
  | (k, Rule.choiceList vs) :: rest =>
      match choice vs g with
      | none => none
      | some (v, g') =>
          match generate_one_row_random_house_data rest g' with
          | none => none
          | some (row, g'') => some ((k, v) :: row, g'')

/-- The tiered configuration: tier name to rule-set, in insertion order. -/
abbrev TieredConfig : Type := List (String × RuleSet)

/-- `get_random_tier_config`: select one tier uniformly at random from the
configuration's tiers and return its rule-set. -/
def get_random_tier_config (housing_config : TieredConfig) (g : RandState) :
    Option (RuleSet × RandState) :=
  match choice housing_config g with
  | none => none
  | some (p, g') => some (p.snd, g')

/-- `generate_housing_df`: build `row_size` rows, each drawn from a randomly
selected tier.  The resulting dataset is the ordered list of rows (the
notebook wraps it in `pd.DataFrame`). -/
def generate_housing_df (housing_config : TieredConfig) (row_size : Nat)
    (g : RandState) : Option (List Row × RandState) :=
  match row_size with
  | 0 => some ([], g)
  | n + 1 =>
      match get_random_tier_config housing_config g with
      | none => none
      | some (tier_config, g1) =>
          match generate_one_row_random_house_data tier_config g1 with
          | none => none
          | some (new_row, g2) =>
              match generate_housing_df housing_config n g2 with
              | none => none
              | some (rows, g3) => some (new_row :: rows, g3)

/-- An attribute's configuration table in the explicit-tag schema of the
second notebook variant: a TOML table with the fields the generator may
look up.  A field that is absent from the TOML table is `none`, so a lookup
on it models Python's `KeyError` / `dict.get` returning `None`. -/
structure AttrConfig where
  type : Option String := none
  min : Option Int := none
  max : Option Int := none
  mean : Option Int := none
  sd : Option Int := none
  list : Option (List Value) := none
deriving DecidableEq, Repr

/-- One draw from `numpy.random.normal(loc, scale)`.  numpy raises
`ValueError("scale < 0")` for a negative `scale`, modelled as `none`
(`scale = 0` is accepted and yields `loc` exactly).  Floating point is not
modelled: a successful sample is an integer-valued function of the next
stream element ranging over `mean + sd * k` for every integer `k`; the
claims settled here depend only on which scales draw without error, not on
the distribution. -/
def normalSample (mean sd : Int) (g : RandState) : Option (Int × RandState) :=
  if 0 ≤ sd then
    some (mean + sd * (if g.stream g.idx % 2 = 0
            then Int.ofNat (g.stream g.idx / 2)
            else -Int.ofNat ((g.stream g.idx + 1) / 2)),
          { g with idx := g.idx + 1 })
  else none

/-- `build_random_housing_column_value` from the explicit-schema variant:
dispatch on the `type` tag.  A Python exception (`KeyError` on a missing
required field, `ValueError` from `randint` on an empty range or from
`numpy.random.normal` on a negative scale, `IndexError` from `choice` on an
empty list) is `.error`; falling through every branch returns Python
`None`, modelled as `.ok none`. -/
def build_random_housing_column_value (attr : AttrConfig) (g : RandState) :
    Except String (Option Value × RandState) :=
  match attr.type with
  | none => .error "KeyError: type"
  | some t =>
      if t = "min_max" then
        match attr.min, attr.max with
        | some lo, some hi =>
            match randint lo hi g with
            | some (v, g') => .ok (some (Value.vint v), g')
            | none => .error "ValueError: empty range for randint"
        | none, _ => .error "KeyError: min"
        | _, none => .error "KeyError: max"
      else if t = "bool" then
        match choice [true, false] g with
        | some (b, g') => .ok (some (Value.vbool b), g')
        | none => .error "IndexError"
      else if t = "dist" then
        match attr.mean, attr.sd with
        | some m, some s =>
            match normalSample m s g with
            | some (sample_price, g') =>
                .ok (some (Value.vint (pyRound1000 sample_price)), g')
            | none => .error "ValueError: scale < 0"
        | none, _ => .error "KeyError: mean"
        | _, none => .error "KeyError: sd"
      else if t = "list" then
        match attr.list with
        | some l =>
            match choice l g with
            | some (v, g') => .ok (some v, g')
            | none => .error "IndexError: empty list"
        | none => .error "KeyError: list"
      else
        .ok (none, g)

/-- One column of `generate_housing_data_df`: the list comprehension
`[build_random_housing_column_value(column_config) for i in range(0, sample_size)]`. -/
def buildColumn (column_config : AttrConfig) (sample_size : Nat) (g : RandState) :
    Except String (List (Option Value) × RandState) :=
  match sample_size with
  | 0 => .ok ([], g)
  | k + 1 =>
      match build_random_housing_column_value column_config g with
      | .error e => .error e
      | .ok (v, g') =>
          match buildColumn column_config k g' with
          | .error e => .error e
          | .ok (vs, g'') => .ok (v :: vs, g'')

/-- `generate_housing_data_df` from the explicit-schema variant: one list of
`sample_size` generated values per configured column, assembled column by
column (the notebook wraps the column dict in `pd.DataFrame`). -/
def generate_housing_data_df (housing_config : List (String × AttrConfig))
    (sample_size : Nat) (g : RandState) :
    Except String (List (String × List (Option Value)) × RandState) :=
  match housing_config with
  | [] => .ok ([], g)
  | (col, column_config) :: rest =>
      match buildColumn column_config sample_size g with
      | .error e => .error e
      | .ok (vs, g') =>
          match generate_housing_data_df rest sample_size g' with
          | .error e => .error e
          | .ok (cols, g'') => .ok ((col, vs) :: cols, g'')

/-- The configuration-loading step of the explicit-schema notebook:
`tomli.load` checks TOML syntax only and returns the parsed table as-is.
The embedding starts from the parsed table, so loading performs no rule
validation — every structurally well-typed table is accepted.  (The
notebook contains no validation code between `tomli.load` and the
generators.) -/
def load_config (cfg : List (String × AttrConfig)) :
    Except String (List (String × AttrConfig)) := .ok cfg

/-- Python's `str(i)` for a possibly negative `int`. -/
def pyStrInt (n : Int) : String :=
  if n < 0 then "-" ++ String.mk (pyStr (-n).toNat) else String.mk (pyStr n.toNat)

/-- How a row value prints in the CSV: Python `str` of the value, booleans
in their canonical textual form. -/
def valueStr : Value → String
  | .vint n => pyStrInt n
  | .vstr s => s
  | .vbool true => "True"
  | .vbool false => "False"

/-- Modelled from the spec: the serialize operation `df.to_csv(path,
index=False)` — the CSV writer itself lives in pandas, outside this
repository.  Per the spec: "first line = comma-joined attribute names;
subsequent lines = comma-joined stringified values in the same column
order; booleans rendered as their canonical textual form". -/
def to_csv (cols : List String) (rows : List Row) : List String :=
  String.intercalate "," cols ::
    rows.map (fun r => String.intercalate "," (r.map (fun p => valueStr p.snd)))

/-- A database error as seen by `drop_tables`: SQLAlchemy's
`OperationalError` or any other exception raised by `session.execute`. -/
inductive DbError where
  | operational (msg : String)
  | other (msg : String)
deriving DecidableEq, Repr

/-- `drop_tables` from `create-database-using-sqlite.ipynb`: build the drop
statement, execute it, and catch `OperationalError` only, printing it.  The
result carries the list of printed messages; `.error` is an exception
propagating to the caller. -/
def drop_tables (execute : String → Except DbError Unit) (table_name : String) :
    Except DbError (List String) :=
  match execute ("drop table " ++ table_name) with
  | .ok _ => .ok []
  | .error (DbError.operational e) => .ok [e]
  | .error e => .error e

/-- The `market_id` primary key of `create-database-using-sqlite.ipynb`:
`f"prop_{i}"` for row index `i`. -/
def market_id (i : Nat) : String := "prop_" ++ String.mk (pyStr i)

/-- The id column `[f"prop_{i}" for i in range(len(df))]` for a dataset of
`n` rows. -/
def market_id_column (n : Nat) : List String := (List.range n).map market_id

/-- A legacy rule the generator can execute without raising: a range string
whose chunks all parse as ints (the notebook's "strings loaded from the
config are always in the form `{int}-{int}`"), or a nonempty choice list. -/
def Rule.wfb : Rule → Bool
  | .rangeStr s => (parseChunks (splitDash s.data)).isSome
  | .choiceList vs => !vs.isEmpty

/-- A validated attribute table of the explicit schema: a recognized `type`
tag with its required fields present, and field values the generation
primitives accept without raising — a non-inverted range for `randint`, a
non-negative standard deviation for `numpy.random.normal`, a nonempty
choice list for `choice`. -/
def AttrConfig.validb (a : AttrConfig) : Bool :=
  match a.type with
  | some "min_max" =>
      match a.min, a.max with
      | some lo, some hi => lo ≤ hi
      | _, _ => false
  | some "bool" => true
  | some "dist" =>
      match a.mean, a.sd with
      | some _, some sd => 0 ≤ sd
      | _, _ => false
  | some "list" =>
      match a.list with
      | some l => !l.isEmpty
      | none => false
  | _ => false

-- sanity checks on the embedding of the primitive draws
example : splitDash "2-10".data = [['2'], ['1', '0']] := by decide
example : parseChunks (splitDash "2-10".data) = some [2, 10] := by decide
example : parseChunks (splitDash "-5".data) = none := by decide
example : pyRound1000 1500 = 2000 := by decide
example : pyRound1000 2500 = 2000 := by decide
example : pyRound1000 100500 = 100000 := by decide
example : pyRound1000 (-1500) = -2000 := by decide
example : pyRound1000 123456 = 123000 := by decide
example : (get_randint_from_range_str "2-10" ⟨fun _ => 3, 0⟩).map Prod.fst =
    some 5 := by decide

/-! ## Properties of the rounding step -/

theorem pyRound1000_emod (n : Int) : pyRound1000 n % 1000 = 0 := by
  unfold pyRound1000
  split <;> [skip; split] <;> omega

theorem pyRound1000_close (n : Int) :
    -500 ≤ pyRound1000 n - n ∧ pyRound1000 n - n ≤ 500 := by
  unfold pyRound1000
  split <;> [skip; split] <;> [skip; skip; split] <;> omega

theorem pyRound1000_tie_even (n : Int) (h : n % 1000 = 500) :
    (pyRound1000 n / 1000) % 2 = 0 := by
  unfold pyRound1000
  rw [h, if_neg (lt_irrefl (500 : Int)), if_neg (lt_irrefl (500 : Int))]
  have h3 : (1000 : Int) * (n / 1000) / 1000 = n / 1000 :=
    Int.mul_ediv_cancel_left _ (by norm_num)
  have h4 : (1000 : Int) * (n / 1000 + 1) / 1000 = n / 1000 + 1 :=
    Int.mul_ediv_cancel_left _ (by norm_num)
  split
  · rw [h3]; omega
  · rw [h4]; omega

/-! ## Properties of the primitive draws -/

theorem randint_eq_of_le {lo hi : Int} (g : RandState) (h : lo ≤ hi) :
    ∃ v, randint lo hi g = some (v, { g with idx := g.idx + 1 }) ∧
      lo ≤ v ∧ v ≤ hi := by
  unfold randint
  rw [if_pos h]
  refine ⟨_, rfl, ?_, ?_⟩
  · omega
  · have hpos : 0 < (hi + 1 - lo).toNat := by omega
    have hm := Nat.mod_lt (g.stream g.idx) hpos
    omega

theorem randint_surjective {lo hi v : Int} (h : lo ≤ v) (h' : v ≤ hi) :
    ∃ g : RandState,
      randint lo hi g = some (v, { g with idx := g.idx + 1 }) := by
  refine ⟨⟨fun _ => (v - lo).toNat, 0⟩, ?_⟩
  unfold randint
  rw [if_pos (by omega)]
  have hlt : (v - lo).toNat < (hi + 1 - lo).toNat := by omega
  rw [Nat.mod_eq_of_lt hlt]
  have heq : lo + ((↑(v - lo).toNat : Int)) = v := by omega
  rw [heq]

theorem choice_mem {α : Type} {l : List α} (g : RandState) (h : l ≠ []) :
    ∃ v, choice l g = some (v, { g with idx := g.idx + 1 }) ∧ v ∈ l := by
  unfold choice
  have hlen : 0 < l.length := List.length_pos.mpr h
  rw [dif_pos hlen]
  exact ⟨_, rfl, List.get_mem _ _ _⟩

/-! ## Facts about parsing and range normalisation -/

theorem foldl_min_le_init (xs : List Int) (a : Int) : xs.foldl min a ≤ a := by
  induction xs generalizing a with
  | nil => exact le_refl a
  | cons y ys ih => exact le_trans (ih (min a y)) (min_le_left a y)

theorem le_foldl_max_init (xs : List Int) (a : Int) : a ≤ xs.foldl max a := by
  induction xs generalizing a with
  | nil => exact le_refl a
  | cons y ys ih => exact le_trans (le_max_left a y) (ih (max a y))

theorem splitDash_ne_nil (l : List Char) : splitDash l ≠ [] := by
  cases l with
  | nil => simp [splitDash]
  | cons c rest =>
      unfold splitDash
      cases splitDash rest <;> cases decide (c = '-') <;> simp

theorem parseChunks_length {cs : List (List Char)} {vs : List Int}
    (h : parseChunks cs = some vs) : vs.length = cs.length := by
  induction cs generalizing vs with
  | nil =>
      unfold parseChunks at h
      cases h
      rfl
  | cons c cs ih =>
      unfold parseChunks at h
      cases hpc : pyInt? c with
      | none => rw [hpc] at h; cases h
      | some v =>
          cases hrest : parseChunks cs with
          | none => rw [hpc, hrest] at h; cases h
          | some ws =>
              rw [hpc, hrest] at h
              cases h
              simp [ih hrest]

theorem parse_of_wf_rangeStr {s : String}
    (hw : Rule.wfb (Rule.rangeStr s) = true) :
    ∃ x xs, parseChunks (splitDash s.data) = some (x :: xs) := by
  rw [Rule.wfb] at hw
  obtain ⟨l, hl⟩ := Option.isSome_iff_exists.mp hw
  cases l with
  | nil =>
      exfalso
      have hlen := parseChunks_length hl
      have := splitDash_ne_nil s.data
      simp at hlen
      exact this (List.length_eq_zero.mp hlen.symm)
  | cons x xs => exact ⟨x, xs, hl⟩

/-- Core behaviour of `get_randint_from_range_str` on a parsable range
string: one draw `d` between the normalised minimum and maximum is made,
and the result is `d` itself when `d ≤ 100000` and `d` rounded to the
nearest thousand otherwise. -/
theorem get_randint_spec {s : String} {x : Int} {xs : List Int} (g : RandState)
    (hp : parseChunks (splitDash s.data) = some (x :: xs)) :
    ∃ d, xs.foldl min x ≤ d ∧ d ≤ xs.foldl max x ∧
      get_randint_from_range_str s g =
        some ((if d ≤ 100000 then d else pyRound1000 d),
              { g with idx := g.idx + 1 }) := by
  have hle : xs.foldl min x ≤ xs.foldl max x :=
    le_trans (foldl_min_le_init xs x) (le_foldl_max_init xs x)
  obtain ⟨v, hv, h1, h2⟩ := randint_eq_of_le g hle
  refine ⟨v, h1, h2, ?_⟩
  unfold get_randint_from_range_str
  rw [hp]
  simp only [hv]

/-! ## Row generation -/

/-- On a rule-set whose rules are all executable, one call to the row
generator succeeds and produces exactly the input's keys, in order, with
one value per attribute. -/
theorem generate_row_spec (config : RuleSet) (g : RandState)
    (hw : ∀ p ∈ config, Rule.wfb p.2 = true) :
    ∃ row g', generate_one_row_random_house_data config g = some (row, g') ∧
      row.map Prod.fst = config.map Prod.fst := by
  induction config generalizing g with
  | nil => exact ⟨[], g, rfl, rfl⟩
  | cons p rest ih =>
      obtain ⟨k, r⟩ := p
      have hwp : Rule.wfb r = true := hw (k, r) (by simp)
      have hwrest : ∀ q ∈ rest, Rule.wfb q.2 = true := fun q hq => hw q (by simp [hq])
      cases r with
      | rangeStr s =>
          obtain ⟨x, xs, hl⟩ := parse_of_wf_rangeStr hwp
          obtain ⟨d, _, _, hd⟩ := get_randint_spec g hl
          obtain ⟨row, g', hrow, hkeys⟩ := ih { g with idx := g.idx + 1 } hwrest
          refine ⟨(k, Value.vint (if d ≤ 100000 then d else pyRound1000 d)) :: row,
            g', ?_, ?_⟩
          · unfold generate_one_row_random_house_data
            simp only [hd, hrow]
          · simp [hkeys]
      | choiceList vs =>
          have hne : vs ≠ [] := by
            rw [Rule.wfb] at hwp
            simpa using hwp
          obtain ⟨v, hv, hmem⟩ := choice_mem g hne
          obtain ⟨row, g', hrow, hkeys⟩ := ih { g with idx := g.idx + 1 } hwrest
          refine ⟨(k, v) :: row, g', ?_, ?_⟩
          · unfold generate_one_row_random_house_data
            simp only [hv, hrow]
          · simp [hkeys]

/-! ## Dataset builders -/

/-- The tiered builder succeeds on a nonempty configuration of executable
rules and produces exactly the requested number of rows. -/
theorem generate_df_spec (cfg : TieredConfig) (N : Nat) (g : RandState)
    (hne : cfg ≠ [])
    (hw : ∀ t ∈ cfg, ∀ p ∈ t.2, Rule.wfb p.2 = true) :
    ∃ rows g', generate_housing_df cfg N g = some (rows, g') ∧
      rows.length = N := by
  induction N generalizing g with
  | zero => exact ⟨[], g, rfl, rfl⟩
  | succ n ih =>
      obtain ⟨t, ht, htmem⟩ := choice_mem g hne
      have htier : get_random_tier_config cfg g =
          some (t.2, { g with idx := g.idx + 1 }) := by
        unfold get_random_tier_config
        simp only [ht]
      obtain ⟨row, g2, hrow, _⟩ :=
        generate_row_spec t.2 { g with idx := g.idx + 1 } (hw t htmem)
      obtain ⟨rows, g3, hrows, hlen⟩ := ih g2
      refine ⟨row :: rows, g3, ?_, by simp [hlen]⟩
      unfold generate_housing_df
      simp only [htier, hrow, hrows]

/-- A validated attribute table always generates one value, consuming one
draw from the randomness source. -/
theorem build_column_value_spec (a : AttrConfig) (g : RandState)
    (hv : a.validb = true) :
    ∃ v, build_random_housing_column_value a g =
      .ok (some v, { g with idx := g.idx + 1 }) := by
  cases hty : a.type with
  | none => simp [AttrConfig.validb, hty] at hv
  | some t =>
      by_cases h1 : t = "min_max"
      · subst h1
        simp only [AttrConfig.validb, hty] at hv
        cases hmin : a.min with
        | none => rw [hmin] at hv; cases hv
        | some lo =>
            cases hmax : a.max with
            | none => rw [hmin, hmax] at hv; cases hv
            | some hi =>
                rw [hmin, hmax] at hv
                have hle : lo ≤ hi := by simpa using hv
                obtain ⟨v, hr, _, _⟩ := randint_eq_of_le g hle
                refine ⟨Value.vint v, ?_⟩
                unfold build_random_housing_column_value
                rw [hty]
                simp only [if_pos rfl, if_true, hmin, hmax, hr]
      · by_cases h2 : t = "bool"
        · subst h2
          obtain ⟨b, hb, _⟩ := choice_mem (l := [true, false]) g (by simp)
          refine ⟨Value.vbool b, ?_⟩
          unfold build_random_housing_column_value
          rw [hty]
          simp only [if_neg (by simp : ¬("bool" : String) = "min_max"), if_pos rfl,
            if_true, hb]
        · by_cases h3 : t = "dist"
          · subst h3
            simp only [AttrConfig.validb, hty] at hv
            cases hmean : a.mean with
            | none => rw [hmean] at hv; simp at hv
            | some m =>
                cases hsd : a.sd with
                | none => rw [hmean, hsd] at hv; simp at hv
                | some sd =>
                    rw [hmean, hsd] at hv
                    have hle : (0 : Int) ≤ sd := by simpa using hv
                    have hns : normalSample m sd g = some
                        (m + sd * (if g.stream g.idx % 2 = 0
                          then Int.ofNat (g.stream g.idx / 2)
                          else -Int.ofNat ((g.stream g.idx + 1) / 2)),
                         { g with idx := g.idx + 1 }) := by
                      unfold normalSample
                      rw [if_pos hle]
                    refine ⟨Value.vint (pyRound1000
                      (m + sd * (if g.stream g.idx % 2 = 0
                        then Int.ofNat (g.stream g.idx / 2)
                        else -Int.ofNat ((g.stream g.idx + 1) / 2)))), ?_⟩
                    unfold build_random_housing_column_value
                    rw [hty]
                    simp only [if_neg (by simp : ¬("dist" : String) = "min_max"),
                      if_neg (by simp : ¬("dist" : String) = "bool"), if_pos rfl,
                      if_true, hmean, hsd, hns]
          · by_cases h4 : t = "list"
            · subst h4
              simp only [AttrConfig.validb, hty] at hv
              cases hlist : a.list with
              | none => rw [hlist] at hv; cases hv
              | some l =>
                  rw [hlist] at hv
                  have hne : l ≠ [] := by simpa using hv
                  obtain ⟨v, hc, _⟩ := choice_mem g hne
                  refine ⟨v, ?_⟩
                  unfold build_random_housing_column_value
                  rw [hty]
                  simp only [if_neg (by simp : ¬("list" : String) = "min_max"),
                    if_neg (by simp : ¬("list" : String) = "bool"),
                    if_neg (by simp : ¬("list" : String) = "dist"), if_pos rfl,
                    if_true, hlist, hc]
            · exfalso
              simp only [AttrConfig.validb, hty] at hv
              rcases ht' : t with _
              simp only [String.ext_iff] at h1 h2 h3 h4
              revert hv
              subst ht'
              split <;> simp_all

/-- A validated column configuration yields a full column of `sample_size`
generated values. -/
theorem buildColumn_spec (a : AttrConfig) (hv : a.validb = true)
    (n : Nat) (g : RandState) :
    ∃ vs g', buildColumn a n g = .ok (vs, g') ∧ vs.length = n := by
  induction n generalizing g with
  | zero => exact ⟨[], g, rfl, rfl⟩
  | succ k ih =>
      obtain ⟨v, hb⟩ := build_column_value_spec a g hv
      obtain ⟨vs, g', hc, hlen⟩ := ih { g with idx := g.idx + 1 }
      refine ⟨some v :: vs, g', ?_, by simp [hlen]⟩
      unfold buildColumn
      simp only [hb, hc]

/-- The column-major builder succeeds on a validated configuration, keeps
the configured column names in order, and gives every column exactly
`sample_size` entries. -/
theorem generate_data_df_spec (cfg : List (String × AttrConfig)) (N : Nat)
    (g : RandState) (hv : ∀ p ∈ cfg, p.2.validb = true) :
    ∃ cols g', generate_housing_data_df cfg N g = .ok (cols, g') ∧
      cols.map Prod.fst = cfg.map Prod.fst ∧ ∀ c ∈ cols, c.2.length = N := by
  induction cfg generalizing g with
  | nil => exact ⟨[], g, rfl, rfl, by simp⟩
  | cons p rest ih =>
      obtain ⟨k, a⟩ := p
      have hva : a.validb = true := hv (k, a) (by simp)
      obtain ⟨vs, g1, hcol, hlen⟩ := buildColumn_spec a hva N g
      obtain ⟨cols, g2, hrest, hkeys, hlens⟩ :=
        ih g1 (fun q hq => hv q (by simp [hq]))
      refine ⟨(k, vs) :: cols, g2, ?_, by simp [hkeys], ?_⟩
      · unfold generate_housing_data_df
        simp only [hcol, hrest]
      · intro c hc
        rcases List.mem_cons.mp hc with rfl | hc
        · simpa using hlen
        · exact hlens c hc

/-! ## The decimal form of the synthetic primary key -/

theorem decodeDigits_append_singleton (l : List Char) (c : Char) :
    decodeDigits (l ++ [c]) = decodeDigits l * 10 + (c.toNat - 48) := by
  simp [decodeDigits, List.foldl_append]

theorem digitChar_toNat {d : Nat} (h : d < 10) :
    (Nat.digitChar d).toNat = 48 + d := by
  interval_cases d <;> rfl

theorem decodeDigits_pyStr (n : Nat) : decodeDigits (pyStr n) = n := by
  induction n using Nat.strong_induction_on with
  | _ n ih =>
      rw [pyStr]
      split
      · rename_i h
        simp [decodeDigits, digitChar_toNat h]
      · rename_i h
        rw [decodeDigits_append_singleton,
          ih (n / 10) (Nat.div_lt_self (by omega) (by omega)),
          digitChar_toNat (Nat.mod_lt _ (by omega))]
        omega

theorem pyStr_injective : Function.Injective pyStr := by
  intro a b h
  have ha := decodeDigits_pyStr a
  rw [h, decodeDigits_pyStr] at ha
  exact ha.symm

theorem market_id_injective : Function.Injective market_id := by
  intro a b h
  unfold market_id at h
  have hd := congrArg String.data h
  simp only [String.data_append] at hd
  exact pyStr_injective (List.append_cancel_left hd)

/-! ## Claims -/

/-- C1: for a range rule with bounds `mn ≤ mx`, `get_randint_from_range_str`
draws one integer `d` from the inclusive interval `[mn, mx]` (every value of
the interval is attainable for some randomness source) and returns `d`
unchanged when `d ≤ 100000`, and otherwise `d` rounded to the nearest
multiple of 1000 with ties resolved to the even multiple; the choice-rule
draw returns a member of its list unmodified, so the rounding applies only
to the range rule form. -/
theorem claim_C1_range_draw_and_rounding (s : String) (mn mx : Int)
    (g : RandState) (hp : parseChunks (splitDash s.data) = some [mn, mx])
    (hmm : mn ≤ mx) :
    (∃ d, mn ≤ d ∧ d ≤ mx ∧
        get_randint_from_range_str s g =
          some ((if d ≤ 100000 then d else pyRound1000 d),
                { g with idx := g.idx + 1 }) ∧
        (100000 < d →
          pyRound1000 d % 1000 = 0 ∧
          -500 ≤ pyRound1000 d - d ∧ pyRound1000 d - d ≤ 500 ∧
          (d % 1000 = 500 → (pyRound1000 d / 1000) % 2 = 0))) ∧
    (∀ v : Int, mn ≤ v → v ≤ mx →
        ∃ g0 : RandState, get_randint_from_range_str s g0 =
          some ((if v ≤ 100000 then v else pyRound1000 v),
                { g0 with idx := g0.idx + 1 })) ∧
    (∀ (vs : List Value) (g1 : RandState), vs ≠ [] →
        ∃ w, choice vs g1 = some (w, { g1 with idx := g1.idx + 1 }) ∧ w ∈ vs) := by
  have hmin : List.foldl min mn [mx] = mn := by simp [min_eq_left hmm]
  have hmax : List.foldl max mn [mx] = mx := by simp [max_eq_right hmm]
  refine ⟨?_, ?_, fun vs g1 hne => choice_mem g1 hne⟩
  · obtain ⟨d, h1, h2, h3⟩ := get_randint_spec g hp
    rw [hmin] at h1
    rw [hmax] at h2
    exact ⟨d, h1, h2, h3, fun _ =>
      ⟨pyRound1000_emod d, (pyRound1000_close d).1, (pyRound1000_close d).2,
        pyRound1000_tie_even d⟩⟩
  · intro v hv1 hv2
    obtain ⟨g0, hg0⟩ := randint_surjective hv1 hv2
    refine ⟨g0, ?_⟩
    unfold get_randint_from_range_str
    rw [hp]
    simp only [hmin, hmax, hg0]

/-- C1 witness: the rule `range(100000, 200000)` at a concrete randomness
source. -/
theorem claim_C1_witness :
    parseChunks (splitDash "100000-200000".data) = some [100000, 200000] ∧
    (100000 : Int) ≤ 200000 ∧
    ((∃ d, (100000 : Int) ≤ d ∧ d ≤ 200000 ∧
        get_randint_from_range_str "100000-200000" ⟨fun _ => 1, 0⟩ =
          some ((if d ≤ 100000 then d else pyRound1000 d),
                { RandState.mk (fun _ => 1) 0 with idx := 0 + 1 }) ∧
        (100000 < d →
          pyRound1000 d % 1000 = 0 ∧
          -500 ≤ pyRound1000 d - d ∧ pyRound1000 d - d ≤ 500 ∧
          (d % 1000 = 500 → (pyRound1000 d / 1000) % 2 = 0))) ∧
    (∀ v : Int, (100000 : Int) ≤ v → v ≤ 200000 →
        ∃ g0 : RandState, get_randint_from_range_str "100000-200000" g0 =
          some ((if v ≤ 100000 then v else pyRound1000 v),
                { g0 with idx := g0.idx + 1 })) ∧
    (∀ (vs : List Value) (g1 : RandState), vs ≠ [] →
        ∃ w, choice vs g1 = some (w, { g1 with idx := g1.idx + 1 }) ∧ w ∈ vs)) :=
  ⟨by decide, by decide,
    claim_C1_range_draw_and_rounding "100000-200000" 100000 200000
      ⟨fun _ => 1, 0⟩ (by decide) (by decide)⟩

/-- C5: for a valid range rule the unrounded uniform draw `d` always
satisfies `mn ≤ d ≤ mx`; the returned value equals the draw when
`d ≤ 100000`, is a multiple of 1000 when the draw exceeded 100000, and in
every case lies within 500 of the draw, hence within `[mn - 500, mx + 500]`. -/
theorem claim_C5_bounds_and_rounded_multiples (s : String) (mn mx : Int)
    (g : RandState) (hp : parseChunks (splitDash s.data) = some [mn, mx])
    (hmm : mn ≤ mx) :
    ∃ d v, mn ≤ d ∧ d ≤ mx ∧
      get_randint_from_range_str s g =
        some (v, { g with idx := g.idx + 1 }) ∧
      (d ≤ 100000 → v = d) ∧
      (100000 < d → v = pyRound1000 d ∧ v % 1000 = 0) ∧
      mn - 500 ≤ v ∧ v ≤ mx + 500 := by
  have hmin : List.foldl min mn [mx] = mn := by simp [min_eq_left hmm]
  have hmax : List.foldl max mn [mx] = mx := by simp [max_eq_right hmm]
  obtain ⟨d, h1, h2, h3⟩ := get_randint_spec g hp
  rw [hmin] at h1
  rw [hmax] at h2
  have hcl := pyRound1000_close d
  refine ⟨d, (if d ≤ 100000 then d else pyRound1000 d), h1, h2, h3, ?_, ?_, ?_, ?_⟩
  · intro h; rw [if_pos h]
  · intro h
    rw [if_neg (by omega)]
    exact ⟨rfl, pyRound1000_emod d⟩
  · split <;> omega
  · split <;> omega

/-- C5 witness: the rule `range(100000, 200000)` at a concrete randomness
source. -/
theorem claim_C5_witness :
    parseChunks (splitDash "100000-200000".data) = some [100000, 200000] ∧
    (100000 : Int) ≤ 200000 ∧
    (∃ d v, (100000 : Int) ≤ d ∧ d ≤ 200000 ∧
      get_randint_from_range_str "100000-200000" ⟨fun _ => 70707, 0⟩ =
        some (v, { RandState.mk (fun _ => 70707) 0 with idx := 0 + 1 }) ∧
      (d ≤ 100000 → v = d) ∧
      (100000 < d → v = pyRound1000 d ∧ v % 1000 = 0) ∧
      (100000 : Int) - 500 ≤ v ∧ v ≤ 200000 + 500) :=
  ⟨by decide, by decide,
    claim_C5_bounds_and_rounded_multiples "100000-200000" 100000 200000
      ⟨fun _ => 70707, 0⟩ (by decide) (by decide)⟩

/-- C10: `get_randint_from_range_str` normalises the two parsed endpoints
with `min`/`max`, so a reversed range string behaves identically to the
original — same draw, same result, and it does not fail. -/
theorem claim_C10_reversed_range_symmetric (s t : String) (a b : Int)
    (g : RandState) (hs : parseChunks (splitDash s.data) = some [a, b])
    (ht : parseChunks (splitDash t.data) = some [b, a]) :
    get_randint_from_range_str s g = get_randint_from_range_str t g ∧
    ∃ v, get_randint_from_range_str t g =
      some (v, { g with idx := g.idx + 1 }) := by
  constructor
  · unfold get_randint_from_range_str
    rw [hs, ht]
    simp only [List.foldl]
    rw [min_comm, max_comm]
  · obtain ⟨d, _, _, h3⟩ := get_randint_spec g ht
    exact ⟨_, h3⟩

/-- C10 witness: `"2-10"` against `"10-2"` at a concrete randomness
source. -/
theorem claim_C10_witness :
    parseChunks (splitDash "2-10".data) = some [2, 10] ∧
    parseChunks (splitDash "10-2".data) = some [10, 2] ∧
    (get_randint_from_range_str "2-10" ⟨fun _ => 4, 0⟩ =
        get_randint_from_range_str "10-2" ⟨fun _ => 4, 0⟩ ∧
      ∃ v, get_randint_from_range_str "10-2" ⟨fun _ => 4, 0⟩ =
        some (v, { RandState.mk (fun _ => 4) 0 with idx := 0 + 1 })) :=
  ⟨by decide, by decide,
    claim_C10_reversed_range_symmetric "2-10" "10-2" 2 10 ⟨fun _ => 4, 0⟩
      (by decide) (by decide)⟩

/-- C3: on a rule-set of genuine rules (parsable range strings, nonempty
choice lists) and any randomness source, one call to the row generator
returns a row whose keys are exactly the rule-set's keys — in the same
order, one generated value per attribute. -/
theorem claim_C3_row_has_exactly_config_keys (config : RuleSet)
    (g : RandState) (hw : ∀ p ∈ config, Rule.wfb p.2 = true) :
    ∃ row g', generate_one_row_random_house_data config g = some (row, g') ∧
      row.map Prod.fst = config.map Prod.fst ∧ row.length = config.length := by
  obtain ⟨row, g', h1, h2⟩ := generate_row_spec config g hw
  exact ⟨row, g', h1, h2, by simpa using congrArg List.length h2⟩

/-- C3 witness: the spec's concrete scenario `{bedrooms: range(1,5),
garage: bool}`. -/
theorem claim_C3_witness :
    (∀ p ∈ ([("bedrooms", Rule.rangeStr "1-5"),
        ("garage", Rule.choiceList [Value.vbool true, Value.vbool false])] :
        RuleSet), Rule.wfb p.2 = true) ∧
    ∃ row g', generate_one_row_random_house_data
        [("bedrooms", Rule.rangeStr "1-5"),
         ("garage", Rule.choiceList [Value.vbool true, Value.vbool false])]
        ⟨fun _ => 2, 0⟩ = some (row, g') ∧
      row.map Prod.fst =
        ([("bedrooms", Rule.rangeStr "1-5"),
          ("garage", Rule.choiceList [Value.vbool true, Value.vbool false])] :
          RuleSet).map Prod.fst ∧
      row.length = ([("bedrooms", Rule.rangeStr "1-5"),
          ("garage", Rule.choiceList [Value.vbool true, Value.vbool false])] :
          RuleSet).length :=
  ⟨by decide,
    claim_C3_row_has_exactly_config_keys
      [("bedrooms", Rule.rangeStr "1-5"),
       ("garage", Rule.choiceList [Value.vbool true, Value.vbool false])]
      ⟨fun _ => 2, 0⟩ (by decide)⟩

/-- C4: the tiered builder produces exactly `N` rows for every `N ≥ 0` on a
nonempty well-formed configuration, `N = 0` unconditionally yields the
empty dataset, serializing an empty dataset yields only the header line,
and the column-major builder gives every configured column exactly `N`
entries. -/
theorem claim_C4_dataset_size_invariant :
    (∀ (cfg : TieredConfig) (N : Nat) (g : RandState), cfg ≠ [] →
        (∀ t ∈ cfg, ∀ p ∈ t.2, Rule.wfb p.2 = true) →
        ∃ rows g', generate_housing_df cfg N g = some (rows, g') ∧
          rows.length = N) ∧
    (∀ (cfg : TieredConfig) (g : RandState),
        generate_housing_df cfg 0 g = some ([], g)) ∧
    (∀ cols : List String, to_csv cols [] = [String.intercalate "," cols]) ∧
    (∀ (cfg : List (String × AttrConfig)) (N : Nat) (g : RandState),
        (∀ p ∈ cfg, p.2.validb = true) →
        ∃ cols g', generate_housing_data_df cfg N g = .ok (cols, g') ∧
          ∀ c ∈ cols, c.2.length = N) := by
  refine ⟨fun cfg N g hne hw => generate_df_spec cfg N g hne hw,
    fun cfg g => rfl, fun cols => rfl, fun cfg N g hv => ?_⟩
  obtain ⟨cols, g', h1, _, h3⟩ := generate_data_df_spec cfg N g hv
  exact ⟨cols, g', h1, h3⟩

/-- C4 witness: a one-tier configuration at `N = 3` and `N = 0`, and a
one-column explicit configuration at `N = 2`. -/
theorem claim_C4_witness :
    (([("tier-1", [("bedrooms", Rule.rangeStr "1-3")])] : TieredConfig) ≠ [] ∧
      (∀ t ∈ ([("tier-1", [("bedrooms", Rule.rangeStr "1-3")])] : TieredConfig),
        ∀ p ∈ t.2, Rule.wfb p.2 = true) ∧
      ∃ rows g', generate_housing_df
          [("tier-1", [("bedrooms", Rule.rangeStr "1-3")])] 3
          ⟨fun _ => 0, 0⟩ = some (rows, g') ∧ rows.length = 3) ∧
    generate_housing_df [("tier-1", [("bedrooms", Rule.rangeStr "1-3")])] 0
      ⟨fun _ => 0, 0⟩ = some ([], ⟨fun _ => 0, 0⟩) ∧
    to_csv ["price", "bedrooms"] [] = ["price,bedrooms"] ∧
    ((∀ p ∈ [("garage", ({ type := some "bool" } : AttrConfig))],
        AttrConfig.validb p.2 = true) ∧
      ∃ cols g', generate_housing_data_df
          [("garage", { type := some "bool" })] 2 ⟨fun _ => 0, 0⟩ =
          .ok (cols, g') ∧ ∀ c ∈ cols, c.2.length = 2) := by
  refine ⟨⟨by decide, by decide, ?_⟩, ?_, ?_, by decide, ?_⟩
  · exact claim_C4_dataset_size_invariant.1
      [("tier-1", [("bedrooms", Rule.rangeStr "1-3")])] 3 ⟨fun _ => 0, 0⟩
      (by decide) (by decide)
  · exact claim_C4_dataset_size_invariant.2.1
      [("tier-1", [("bedrooms", Rule.rangeStr "1-3")])] ⟨fun _ => 0, 0⟩
  · have h := claim_C4_dataset_size_invariant.2.2.1 ["price", "bedrooms"]
    simpa using h
  · exact claim_C4_dataset_size_invariant.2.2.2
      [("garage", { type := some "bool" })] 2 ⟨fun _ => 0, 0⟩ (by decide)

/-- C7: the dataset builders are functions of the configuration, the row
count and the randomness source alone — two runs whose sources agree
pointwise (same seed) produce identical datasets, for both builder
variants. -/
theorem claim_C7_determinism (cfg : TieredConfig)
    (cfg2 : List (String × AttrConfig)) (N : Nat) (g1 g2 : RandState)
    (hs : ∀ k, g1.stream k = g2.stream k) (hidx : g1.idx = g2.idx) :
    generate_housing_df cfg N g1 = generate_housing_df cfg N g2 ∧
    generate_housing_data_df cfg2 N g1 = generate_housing_data_df cfg2 N g2 := by
  have hg : g1 = g2 := by
    cases g1
    cases g2
    simp only [RandState.mk.injEq]
    exact ⟨funext hs, hidx⟩
  subst hg
  exact ⟨rfl, rfl⟩

/-- C7 witness: two syntactically different but pointwise equal randomness
sources. -/
theorem claim_C7_witness :
    (∀ k, (RandState.mk (fun n => n + 1) 0).stream k =
      (RandState.mk (fun n => 1 + n) 0).stream k) ∧
    (RandState.mk (fun n => n + 1) 0).idx = (RandState.mk (fun n => 1 + n) 0).idx ∧
    (generate_housing_df [("tier-1", [("bedrooms", Rule.rangeStr "1-3")])] 2
        ⟨fun n => n + 1, 0⟩ =
      generate_housing_df [("tier-1", [("bedrooms", Rule.rangeStr "1-3")])] 2
        ⟨fun n => 1 + n, 0⟩ ∧
      generate_housing_data_df [("garage", { type := some "bool" })] 2
        ⟨fun n => n + 1, 0⟩ =
      generate_housing_data_df [("garage", { type := some "bool" })] 2
        ⟨fun n => 1 + n, 0⟩) :=
  ⟨fun k => Nat.add_comm k 1, rfl,
    claim_C7_determinism [("tier-1", [("bedrooms", Rule.rangeStr "1-3")])]
      [("garage", { type := some "bool" })] 2 ⟨fun n => n + 1, 0⟩
      ⟨fun n => 1 + n, 0⟩ (fun k => Nat.add_comm k 1) rfl⟩

/-- C2 counterexample: a `min_max` rule missing its `min` field is accepted
unchanged by the loading step and only fails — with a `KeyError` — when the
generator reaches it. -/
theorem claim_C2_counterexample :
    load_config [("price", { type := some "min_max", max := some 200000 })] =
      .ok [("price", { type := some "min_max", max := some 200000 })] ∧
    build_random_housing_column_value
      { type := some "min_max", max := some 200000 } ⟨fun _ => 0, 0⟩ =
      .error "KeyError: min" :=
  ⟨rfl, rfl⟩

/-- C2 amended: the loading step accepts every structurally well-typed
configuration without rule validation; a `min_max` rule missing `min` or
`max` raises a `KeyError` at generation time, and an unrecognized tag is
not rejected either — generation silently produces `None` for it. -/
theorem claim_C2_no_load_time_validation :
    (∀ cfg : List (String × AttrConfig), load_config cfg = .ok cfg) ∧
    (∀ (a : AttrConfig) (g : RandState), a.type = some "min_max" →
        a.min = none →
        build_random_housing_column_value a g = .error "KeyError: min") ∧
    (∀ (a : AttrConfig) (g : RandState), a.type = some "min_max" →
        a.max = none → (∃ lo, a.min = some lo) →
        build_random_housing_column_value a g = .error "KeyError: max") ∧
    (∀ (a : AttrConfig) (g : RandState) (t : String), a.type = some t →
        t ≠ "min_max" → t ≠ "bool" → t ≠ "dist" → t ≠ "list" →
        build_random_housing_column_value a g = .ok (none, g)) := by
  refine ⟨fun _ => rfl, ?_, ?_, ?_⟩
  · intro a g hty hmin
    unfold build_random_housing_column_value
    rw [hty]
    simp only [if_pos rfl, if_true, hmin]
  · intro a g hty hmax hmin
    obtain ⟨lo, hlo⟩ := hmin
    unfold build_random_housing_column_value
    rw [hty]
    simp only [if_pos rfl, if_true, hlo, hmax]
  · intro a g t hty h1 h2 h3 h4
    unfold build_random_housing_column_value
    rw [hty]
    simp [h1, h2, h3, h4]

/-- C2 witness for the amended statement, at concrete inputs. -/
theorem claim_C2_witness :
    load_config [("price", ({ type := some "dist" } : AttrConfig))] =
      .ok [("price", { type := some "dist" })] ∧
    (({ type := some "min_max", max := some 9 } : AttrConfig).type =
        some "min_max" ∧
      ({ type := some "min_max", max := some 9 } : AttrConfig).min = none ∧
      build_random_housing_column_value { type := some "min_max", max := some 9 }
        ⟨fun _ => 5, 0⟩ = .error "KeyError: min") ∧
    (("unknown" : String) ≠ "min_max" ∧
      build_random_housing_column_value { type := some "unknown" }
        ⟨fun _ => 5, 0⟩ = .ok (none, ⟨fun _ => 5, 0⟩)) :=
  ⟨claim_C2_no_load_time_validation.1 [("price", { type := some "dist" })],
    ⟨rfl, rfl,
      claim_C2_no_load_time_validation.2.1
        { type := some "min_max", max := some 9 } ⟨fun _ => 5, 0⟩ rfl rfl⟩,
    ⟨by decide,
      claim_C2_no_load_time_validation.2.2.2 { type := some "unknown" }
        ⟨fun _ => 5, 0⟩ "unknown" rfl (by decide) (by decide) (by decide)
        (by decide)⟩⟩

/-- C6 counterexample: a rule whose tag is unrecognized does not make row
generation fail — `build_random_housing_column_value` falls through every
branch and returns Python `None`. -/
theorem claim_C6_counterexample :
    build_random_housing_column_value { type := some "unknown" }
      ⟨fun _ => 0, 0⟩ = .ok (none, ⟨fun _ => 0, 0⟩) :=
  rfl

/-- C6 amended: a rule with an unrecognized tag reaching generation yields
`None` silently rather than raising a generation error; on a validated
configuration (recognized tag, required fields present, `min ≤ max`,
non-negative `sd`, nonempty list) generation raises no error and produces a
value — while a `dist` rule with a negative `sd`, which load-time checks do
not reject, raises numpy's `ValueError` during generation. -/
theorem claim_C6_unrecognized_tag_is_silent :
    (∀ (a : AttrConfig) (g : RandState) (t : String), a.type = some t →
        t ≠ "min_max" → t ≠ "bool" → t ≠ "dist" → t ≠ "list" →
        build_random_housing_column_value a g = .ok (none, g)) ∧
    (∀ (a : AttrConfig) (g : RandState), a.validb = true →
        ∃ v, build_random_housing_column_value a g =
          .ok (some v, { g with idx := g.idx + 1 })) ∧
    (∀ (a : AttrConfig) (g : RandState) (m s : Int), a.type = some "dist" →
        a.mean = some m → a.sd = some s → s < 0 →
        build_random_housing_column_value a g =
          .error "ValueError: scale < 0") := by
  refine ⟨?_, fun a g hv => build_column_value_spec a g hv, ?_⟩
  · intro a g t hty h1 h2 h3 h4
    unfold build_random_housing_column_value
    rw [hty]
    simp [h1, h2, h3, h4]
  · intro a g m s hty hm hs hneg
    unfold build_random_housing_column_value
    rw [hty]
    have hns : normalSample m s g = none := by
      unfold normalSample
      rw [if_neg (by omega)]
    simp only [if_neg (by simp : ¬("dist" : String) = "min_max"),
      if_neg (by simp : ¬("dist" : String) = "bool"), if_pos rfl, if_true,
      hm, hs, hns]

/-- C6 witness for the amended statement, at concrete inputs. -/
theorem claim_C6_witness :
    (("mystery" : String) ≠ "min_max" ∧
      build_random_housing_column_value { type := some "mystery" }
        ⟨fun _ => 9, 0⟩ = .ok (none, ⟨fun _ => 9, 0⟩)) ∧
    (AttrConfig.validb { type := some "bool" } = true ∧
      ∃ v, build_random_housing_column_value { type := some "bool" }
        ⟨fun _ => 9, 0⟩ =
        .ok (some v, { RandState.mk (fun _ => 9) 0 with idx := 0 + 1 })) ∧
    ((-1 : Int) < 0 ∧
      build_random_housing_column_value
        { type := some "dist", mean := some 500000, sd := some (-1) }
        ⟨fun _ => 9, 0⟩ = .error "ValueError: scale < 0") :=
  ⟨⟨by decide,
      claim_C6_unrecognized_tag_is_silent.1 { type := some "mystery" }
        ⟨fun _ => 9, 0⟩ "mystery" rfl (by decide) (by decide) (by decide)
        (by decide)⟩,
    ⟨by decide,
      claim_C6_unrecognized_tag_is_silent.2.1 { type := some "bool" }
        ⟨fun _ => 9, 0⟩ (by decide)⟩,
    ⟨by decide,
      claim_C6_unrecognized_tag_is_silent.2.2
        { type := some "dist", mean := some 500000, sd := some (-1) }
        ⟨fun _ => 9, 0⟩ 500000 (-1) rfl rfl rfl (by decide)⟩⟩

/-- C8: an `OperationalError` raised while executing the drop statement is
caught by `drop_tables` and logged, and the call returns normally instead
of propagating the error. -/
theorem claim_C8_drop_tables_catches_operational_error
    (execute : String → Except DbError Unit) (table_name e : String)
    (h : execute ("drop table " ++ table_name) =
      .error (DbError.operational e)) :
    drop_tables execute table_name = .ok [e] := by
  unfold drop_tables
  rw [h]

/-- C8 witness: an execute function that always raises `OperationalError`. -/
theorem claim_C8_witness :
    (fun _ : String =>
        (.error (DbError.operational "no such table: housing_market") :
          Except DbError Unit)) ("drop table " ++ "housing_market") =
      .error (DbError.operational "no such table: housing_market") ∧
    drop_tables
      (fun _ => .error (DbError.operational "no such table: housing_market"))
      "housing_market" = .ok ["no such table: housing_market"] :=
  ⟨rfl,
    claim_C8_drop_tables_catches_operational_error
      (fun _ => .error (DbError.operational "no such table: housing_market"))
      "housing_market" "no such table: housing_market" rfl⟩

/-- C9: the synthetic primary-key column for an `n`-row dataset has one id
per row, the id of row `i` is the prefix `"prop_"` followed by the decimal
form of `i`, and the ids are pairwise distinct. -/
theorem claim_C9_market_ids_sequential_and_distinct (n : Nat) :
    (market_id_column n).length = n ∧
    (market_id_column n).Nodup ∧
    ∀ i, i < n → (market_id_column n)[i]? =
      some ("prop_" ++ String.mk (pyStr i)) := by
  refine ⟨by simp [market_id_column],
    (List.nodup_range n).map market_id_injective, ?_⟩
  intro i hi
  simp [market_id_column, market_id, hi]

/-- C9 witness: the id column of a 3-row dataset. -/
theorem claim_C9_witness :
    (market_id_column 3).length = 3 ∧ (market_id_column 3).Nodup ∧
    (1 < 3 → (market_id_column 3)[1]? =
      some ("prop_" ++ String.mk (pyStr 1))) :=
  ⟨(claim_C9_market_ids_sequential_and_distinct 3).1,
    (claim_C9_market_ids_sequential_and_distinct 3).2.1,
    fun h => (claim_C9_market_ids_sequential_and_distinct 3).2.2 1 h⟩
